import Mathlib

/-!
Verification of the Ajenti gateway core and core API handlers.

The definitions below are shallow embeddings of the Python source files
`ajenti-core/aj/core.py` and `plugins/core/views/api.py`: each handler or
lifecycle routine is rendered as a pure Lean function that returns its
response value together with the ordered list of side effects it performs
(session redirects, worker termination, sleeps, log lines, signals sent).
-/

namespace Ajenti

/-- A JSON value as produced by the API handlers (only the shapes the
handlers actually emit: null, booleans and strings). -/
inductive JVal where
  | null
  | bool (b : Bool)
  | str (s : String)
deriving DecidableEq, Repr

/-- A JSON object: an ordered list of key/value pairs, mirroring the
Python dict literals returned by the handlers. -/
abbrev JObj := List (String × JVal)

/-- Python truthiness of an optional string value (None and the empty
string are falsy). -/
def optTruthy : Option String → Bool
  | none => false
  | some s => s ≠ ""

/-- Rendering of an optional string inside a Python f-string
(None prints as the text None). -/
def showPyOpt : Option String → String
  | none => "None"
  | some s => s

/-- Error raised by a failed sudo elevation, from aj.auth.SudoError;
carries the message surfaced to the client. -/
structure SudoError where
  message : String
deriving DecidableEq, Repr

/-- The authentication backend used by handle_api_auth:
check_password returns the auth_info payload on success and None on
failure; check_sudo_password returns a boolean or raises SudoError. -/
structure AuthService where
  check_password : Option String → Option String → Option String
  check_sudo_password : Option String → Option String → Except SudoError Bool

/-- The parts of a POST /api/core/auth request the handler reads:
the decoded body fields and the REMOTE_ADDR environment entry. -/
structure AuthRequest where
  mode : String
  username : Option String
  password : Option String
  remote_addr : Option String

/-- Side effects performed by handle_api_auth, in execution order. -/
inductive AuthEffect where
  | prepare_session_redirect (username : Option String) (auth_info : Option String)
  | terminate_worker
  | sleep (seconds : Nat)
  | log_warning (msg : String)
deriving DecidableEq, Repr

/-- The warning line logged on a failed normal login, from the f-string
in the source. -/
def failedLoginMessage (username ip : Option String) : String :=
  "Failed login from " ++ showPyOpt username ++ " at IP : " ++ showPyOpt ip

/-- Shallow embedding of Handler.handle_api_auth from
plugins/core/views/api.py: returns the JSON response and the ordered
list of side effects. -/
def handle_api_auth (auth : AuthService) (req : AuthRequest) : JObj × List AuthEffect :=
  if req.mode = "normal" then
    match auth.check_password req.username req.password with
    | some auth_info =>
        ([("success", .bool true),
          ("username", match req.username with | none => .null | some u => .str u)],
         [.prepare_session_redirect req.username (some auth_info)])
    | none =>
        ([("success", .bool false), ("error", .null)],
         [.log_warning (failedLoginMessage req.username req.remote_addr), .sleep 3])
  else if req.mode = "sudo" then
    match auth.check_sudo_password req.username req.password with
    | .ok true =>
        ([("success", .bool true), ("username", .str "root")],
         [.terminate_worker, .prepare_session_redirect (some "root") none])
    | .ok false =>
        ([("success", .bool false), ("error", .str "Authorization failed")],
         [.sleep 3])
    | .error e =>
        ([("success", .bool false), ("error", .str e.message)],
         [.sleep 3])
  else
    ([("success", .bool false), ("error", .str "Invalid mode")], [])

/-- Claim C2: on a sudo-mode auth request whose elevation password check
succeeds, the current worker is terminated, a session redirect is
prepared for the fixed identity root (with no nested auth info), and the
response is success true with username root. -/
theorem sudo_elevation_success (auth : AuthService) (req : AuthRequest)
    (hmode : req.mode = "sudo")
    (hok : auth.check_sudo_password req.username req.password = .ok true) :
    handle_api_auth auth req =
      ([("success", .bool true), ("username", .str "root")],
       [.terminate_worker, .prepare_session_redirect (some "root") none]) := by
  simp [handle_api_auth, hmode, hok]

/-- Claim C2 witness: the sudo success path evaluated at a concrete
request and backend. -/
theorem sudo_elevation_success_witness :
    handle_api_auth
      ⟨fun _ _ => none, fun _ _ => .ok true⟩
      ⟨"sudo", some "alice", some "pw", some "10.0.0.5"⟩ =
      ([("success", .bool true), ("username", .str "root")],
       [.terminate_worker, .prepare_session_redirect (some "root") none]) :=
  sudo_elevation_success ⟨fun _ _ => none, fun _ _ => .ok true⟩
    ⟨"sudo", some "alice", some "pw", some "10.0.0.5"⟩ rfl rfl

/-- Claim C3: on a normal-mode auth request whose credential check fails,
the handler logs a warning whose text contains the attempted username and
the source IP, then sleeps 3 seconds, returns exactly success false with
error null, and prepares no session redirect. -/
theorem normal_auth_failure (auth : AuthService) (req : AuthRequest)
    (u ip : String)
    (hmode : req.mode = "normal")
    (hfail : auth.check_password req.username req.password = none)
    (hu : req.username = some u) (hip : req.remote_addr = some ip) :
    handle_api_auth auth req =
      ([("success", .bool false), ("error", .null)],
       [.log_warning (failedLoginMessage (some u) (some ip)), .sleep 3])
    ∧ (∃ a b, failedLoginMessage (some u) (some ip) = a ++ u ++ b)
    ∧ (∃ c d, failedLoginMessage (some u) (some ip) = c ++ ip ++ d)
    ∧ ∀ v info, AuthEffect.prepare_session_redirect v info ∉ (handle_api_auth auth req).2 := by
  rw [hu] at hfail
  refine ⟨by simp [handle_api_auth, hmode, hu, hip, hfail], ⟨"Failed login from ", " at IP : " ++ ip, ?_⟩, ⟨"Failed login from " ++ u ++ " at IP : ", "", ?_⟩, ?_⟩
  · simp [failedLoginMessage, showPyOpt, String.append_assoc]
  · simp [failedLoginMessage, showPyOpt, String.append_assoc]
  · intro v info
    simp [handle_api_auth, hmode, hu, hfail]

/-- Claim C3 witness: the failed normal login evaluated for user bob from
IP 10.0.0.5. -/
theorem normal_auth_failure_witness :
    handle_api_auth
      ⟨fun _ _ => none, fun _ _ => .ok false⟩
      ⟨"normal", some "bob", some "pw", some "10.0.0.5"⟩ =
      ([("success", .bool false), ("error", .null)],
       [.log_warning (failedLoginMessage (some "bob") (some "10.0.0.5")), .sleep 3]) :=
  (normal_auth_failure ⟨fun _ _ => none, fun _ _ => .ok false⟩
    ⟨"normal", some "bob", some "pw", some "10.0.0.5"⟩
    "bob" "10.0.0.5" rfl rfl rfl rfl).1

/-- Claim C9: an auth request whose mode is neither normal nor sudo gets
the response success false with error Invalid mode, with no side effects
at all: no sleep, no log line, no worker or session operation. -/
theorem invalid_mode_auth (auth : AuthService) (req : AuthRequest)
    (h1 : req.mode ≠ "normal") (h2 : req.mode ≠ "sudo") :
    handle_api_auth auth req =
      ([("success", .bool false), ("error", .str "Invalid mode")], []) := by
  simp [handle_api_auth, h1, h2]

/-- Claim C9 witness: an unknown mode evaluated concretely. -/
theorem invalid_mode_auth_witness :
    handle_api_auth
      ⟨fun _ _ => some "info", fun _ _ => .ok true⟩
      ⟨"other", some "alice", some "pw", none⟩ =
      ([("success", .bool false), ("error", .str "Invalid mode")], []) :=
  invalid_mode_auth ⟨fun _ _ => some "info", fun _ _ => .ok true⟩
    ⟨"other", some "alice", some "pw", none⟩ (by decide) (by decide)

/-- Side effects performed by handle_api_sessiontime, in execution order. -/
inductive SessionEffect where
  | update_sessionlist
  | sleep_ms (ms : Nat)
deriving DecidableEq, Repr

/-- The idle-timeout window: the configured session_max_time when it is a
truthy value, else the default 3600, from the conditional expression in
the source. -/
def effectiveSessionMaxTime : Option Int → Int
  | some t => if t ≠ 0 then t else 3600
  | none => 3600

/-- Shallow embedding of Handler.handle_api_sessiontime from
plugins/core/views/api.py: with autologin active it returns the fixed
value 86400 and performs nothing; otherwise it refreshes the session
list, waits 10 ms for propagation, and returns
timestamp + session_max_time - now, with timestamp 0 when the session key
is absent from the registry. -/
def handle_api_sessiontime (dev_autologin : Bool) (session_max_time : Option Int)
    (sessions : List (String × Int)) (session_key : String) (now : Int) :
    Int × List SessionEffect :=
  if dev_autologin then (86400, [])
  else
    let smt : Int := effectiveSessionMaxTime session_max_time
    let timestamp : Int := (sessions.lookup session_key).getD 0
    (timestamp + smt - now, [.update_sessionlist, .sleep_ms 10])

/-- Claim C5: without autologin the returned value is
timestamp + session_max_time - now with session_max_time defaulting to
3600 when unconfigured; a session whose deadline lies in the past yields
a non-positive value; with autologin the fixed value 86400 is returned
and the session registry is not touched. -/
theorem sessiontime_spec (cfg : Option Int) (sessions : List (String × Int))
    (key : String) (now ts : Int)
    (hts : sessions.lookup key = some ts) :
    (handle_api_sessiontime false cfg sessions key now).1
        = ts + effectiveSessionMaxTime cfg - now
    ∧ (handle_api_sessiontime false cfg sessions key now).2
        = [.update_sessionlist, .sleep_ms 10]
    ∧ effectiveSessionMaxTime none = 3600
    ∧ (ts + effectiveSessionMaxTime cfg < now →
        (handle_api_sessiontime false cfg sessions key now).1 ≤ 0)
    ∧ handle_api_sessiontime true cfg sessions key now = (86400, []) := by
  refine ⟨by simp [handle_api_sessiontime, hts], by simp [handle_api_sessiontime], rfl, ?_, by simp [handle_api_sessiontime]⟩
  intro hpast
  simp only [handle_api_sessiontime, if_neg Bool.false_ne_true, hts]
  simp
  omega

/-- Claim C5 witness: a session registry with an expired entry evaluated
concretely, together with the autologin bypass. -/
theorem sessiontime_spec_witness :
    (handle_api_sessiontime false none [("k", 100)] "k" 5000).1 = 100 + 3600 - 5000
    ∧ (handle_api_sessiontime false none [("k", 100)] "k" 5000).1 ≤ 0
    ∧ handle_api_sessiontime true none [("k", 100)] "k" 5000 = (86400, []) :=
  ⟨(sessiontime_spec none [("k", 100)] "k" 5000 100 rfl).1,
   (sessiontime_spec none [("k", 100)] "k" 5000 100 rfl).2.2.2.1 (by decide),
   (sessiontime_spec none [("k", 100)] "k" 5000 100 rfl).2.2.2.2⟩

/-- Client-certificate verification sub-configuration of the ssl config
section. -/
structure ClientAuthConfig where
  enable : Bool
  force : Bool
deriving DecidableEq, Repr

/-- The ssl section of the configuration read by run in
ajenti-core/aj/core.py. -/
structure SslConfig where
  enable : Bool
  certificate : String
  fqdn_certificate : Option String
  client_auth : ClientAuthConfig
deriving DecidableEq, Repr

/-- The certificate/key path used for load_cert_chain: the FQDN-specific
path when that config entry is truthy, else the base certificate path,
from the conditional in run. -/
def effectiveCertPath (ssl : SslConfig) : String :=
  if optTruthy ssl.fqdn_certificate then ssl.fqdn_certificate.getD ssl.certificate
  else ssl.certificate

/-- The certificate chain path loaded at startup: present exactly when
the ssl enable flag is set and the bind mode is tcp, mirroring the guard
of the TLS block in run. -/
def loadedCertChainPath (ssl : SslConfig) (bind_mode : String) : Option String :=
  if ssl.enable ∧ bind_mode = "tcp" then some (effectiveCertPath ssl) else none

/-- Claim C8: with TLS enabled and bind mode tcp, the loaded certificate
path is the base certificate path when fqdn_certificate is unset and the
FQDN path when it is set; and a certificate chain is loaded only when the
bind mode is tcp. -/
theorem tls_cert_path_spec (ssl : SslConfig) (mode : String)
    (henable : ssl.enable = true) (hmode : mode = "tcp") :
    (ssl.fqdn_certificate = none →
        loadedCertChainPath ssl mode = some ssl.certificate)
    ∧ (∀ p, ssl.fqdn_certificate = some p → p ≠ "" →
        loadedCertChainPath ssl mode = some p)
    ∧ (∀ m, m ≠ "tcp" → loadedCertChainPath ssl m = none) := by
  refine ⟨?_, ?_, ?_⟩
  · intro hnone
    simp [loadedCertChainPath, effectiveCertPath, henable, hmode, optTruthy, hnone]
  · intro p hp hne
    simp [loadedCertChainPath, effectiveCertPath, henable, hmode, optTruthy, hp, hne]
  · intro m hm
    simp [loadedCertChainPath, hm]

/-- Claim C8 witness: concrete configs with and without an FQDN
certificate, and a non-tcp bind mode. -/
theorem tls_cert_path_spec_witness :
    loadedCertChainPath ⟨true, "/etc/cert.pem", none, ⟨false, false⟩⟩ "tcp"
        = some "/etc/cert.pem"
    ∧ loadedCertChainPath ⟨true, "/etc/cert.pem", some "/etc/fqdn.pem", ⟨false, false⟩⟩ "tcp"
        = some "/etc/fqdn.pem"
    ∧ loadedCertChainPath ⟨true, "/etc/cert.pem", none, ⟨false, false⟩⟩ "unix" = none :=
  ⟨(tls_cert_path_spec ⟨true, "/etc/cert.pem", none, ⟨false, false⟩⟩ "tcp" rfl rfl).1 rfl,
   (tls_cert_path_spec ⟨true, "/etc/cert.pem", some "/etc/fqdn.pem", ⟨false, false⟩⟩ "tcp"
      rfl rfl).2.1 "/etc/fqdn.pem" rfl (by decide),
   (tls_cert_path_spec ⟨true, "/etc/cert.pem", none, ⟨false, false⟩⟩ "tcp" rfl rfl).2.2
      "unix" (by decide)⟩

/-- The two signals the cleanup loop sends to a child process group. -/
inductive Sig where
  | term
  | kill
deriving DecidableEq, Repr

/-- One descendant process as enumerated by psutil children recursive:
its pid, and whether the killpg call for each signal raises OSError (for
example because the process already exited). -/
structure Child where
  pid : Nat
  term_raises : Bool
  kill_raises : Bool
deriving DecidableEq, Repr

/-- Observable events of the cleanup routine, in execution order.
Every killpg call produces an attempt event, and a delivered event when
it does not raise. -/
inductive CleanupEvent where
  | log_exiting
  | rearm_signals
  | gateway_destroy
  | killpg_attempt (pid : Nat) (sig : Sig)
  | killpg_delivered (pid : Nat) (sig : Sig)
deriving DecidableEq, Repr

/-- An exception value as raised by os.killpg: always an OSError. -/
inductive PyError where
  | os_error (pid : Nat)
deriving DecidableEq, Repr

/-- The try block body for one child: killpg with SIGTERM then killpg
with SIGKILL; on a raise the events already performed are kept and the
error is reported. -/
def signalChildBody (c : Child) : List CleanupEvent × Option PyError :=
  if c.term_raises then
    ([.killpg_attempt c.pid .term], some (.os_error c.pid))
  else if c.kill_raises then
    ([.killpg_attempt c.pid .term, .killpg_delivered c.pid .term,
      .killpg_attempt c.pid .kill], some (.os_error c.pid))
  else
    ([.killpg_attempt c.pid .term, .killpg_delivered c.pid .term,
      .killpg_attempt c.pid .kill, .killpg_delivered c.pid .kill], none)

/-- The except OSError pass clause around one child body: an OSError is
swallowed, any other exception would propagate. -/
def catchOSError : List CleanupEvent × Option PyError → Except PyError (List CleanupEvent)
  | (evs, none) => .ok evs
  | (evs, some (.os_error _)) => .ok evs

/-- The child-termination loop of cleanup in ajenti-core/aj/core.py:
processes every enumerated descendant in order, each inside its own
try/except. -/
def signalChildren : List Child → Except PyError (List CleanupEvent)
  | [] => .ok []
  | c :: rest => do
      let evs ← catchOSError (signalChildBody c)
      let more ← signalChildren rest
      .ok (evs ++ more)

/-- The events the child-termination loop performs, child by child. -/
def signalChildrenEvents : List Child → List CleanupEvent
  | [] => []
  | c :: rest => (signalChildBody c).1 ++ signalChildrenEvents rest

theorem signalChildren_eq_events (cs : List Child) :
    signalChildren cs = .ok (signalChildrenEvents cs) := by
  induction cs with
  | nil => rfl
  | cons c rest ih =>
      simp only [signalChildren, signalChildrenEvents, ih]
      cases h : signalChildBody c with
      | mk evs err =>
          cases err with
          | none => rfl
          | some e => cases e with
            | os_error p => rfl

theorem signalChildrenEvents_append (xs ys : List Child) :
    signalChildrenEvents (xs ++ ys)
      = signalChildrenEvents xs ++ signalChildrenEvents ys := by
  induction xs with
  | nil => rfl
  | cons c rest ih => simp [signalChildrenEvents, ih]

theorem mem_signalChildrenEvents_of_mem_body {e : CleanupEvent} {c : Child}
    (cs : List Child) (hc : c ∈ cs) (he : e ∈ (signalChildBody c).1) :
    e ∈ signalChildrenEvents cs := by
  induction cs with
  | nil => cases hc
  | cons d rest ih =>
      rcases List.mem_cons.mp hc with h | h
      · subst h
        exact List.mem_append.mpr (Or.inl he)
      · exact List.mem_append.mpr (Or.inr (ih h))

/-- Claim C6: the child-termination loop never lets an OS-level
signalling exception escape, attempts a SIGTERM killpg on every
descendant, delivers SIGTERM and then SIGKILL to every descendant whose
killpg calls do not raise, and an error on one child leaves the
processing of the others unchanged. -/
theorem cleanup_child_loop_spec (cs : List Child) :
    signalChildren cs = .ok (signalChildrenEvents cs)
    ∧ (∀ c ∈ cs, CleanupEvent.killpg_attempt c.pid .term ∈ signalChildrenEvents cs)
    ∧ (∀ c ∈ cs, c.term_raises = false →
        CleanupEvent.killpg_delivered c.pid .term ∈ signalChildrenEvents cs)
    ∧ (∀ c ∈ cs, c.term_raises = false → c.kill_raises = false →
        CleanupEvent.killpg_delivered c.pid .kill ∈ signalChildrenEvents cs)
    ∧ (∀ ys, signalChildrenEvents (cs ++ ys)
        = signalChildrenEvents cs ++ signalChildrenEvents ys) := by
  refine ⟨signalChildren_eq_events cs, ?_, ?_, ?_, fun ys => signalChildrenEvents_append cs ys⟩
  · intro c hc
    refine mem_signalChildrenEvents_of_mem_body cs hc ?_
    simp only [signalChildBody]
    by_cases h1 : c.term_raises <;> by_cases h2 : c.kill_raises <;> simp [h1, h2]
  · intro c hc h1
    refine mem_signalChildrenEvents_of_mem_body cs hc ?_
    simp only [signalChildBody, h1]
    by_cases h2 : c.kill_raises <;> simp [h2]
  · intro c hc h1 h2
    refine mem_signalChildrenEvents_of_mem_body cs hc ?_
    simp [signalChildBody, h1, h2]

/-- Claim C6 witness: three children of which the second already exited;
the loop returns normally, signals the first and third fully, and still
attempts the second. -/
theorem cleanup_child_loop_spec_witness :
    signalChildren [⟨11, false, false⟩, ⟨12, true, false⟩, ⟨13, false, false⟩]
      = .ok (signalChildrenEvents [⟨11, false, false⟩, ⟨12, true, false⟩, ⟨13, false, false⟩])
    ∧ CleanupEvent.killpg_attempt 12 .term
        ∈ signalChildrenEvents [⟨11, false, false⟩, ⟨12, true, false⟩, ⟨13, false, false⟩]
    ∧ CleanupEvent.killpg_delivered 13 .kill
        ∈ signalChildrenEvents [⟨11, false, false⟩, ⟨12, true, false⟩, ⟨13, false, false⟩] :=
  ⟨(cleanup_child_loop_spec [⟨11, false, false⟩, ⟨12, true, false⟩, ⟨13, false, false⟩]).1,
   (cleanup_child_loop_spec [⟨11, false, false⟩, ⟨12, true, false⟩, ⟨13, false, false⟩]).2.1
      ⟨12, true, false⟩ (by decide),
   (cleanup_child_loop_spec [⟨11, false, false⟩, ⟨12, true, false⟩, ⟨13, false, false⟩]).2.2.2.1
      ⟨13, false, false⟩ (by decide) rfl rfl⟩

/-- The ambient data the cleanup closure reads: whether this process is
the master, and the enumerated descendant processes. -/
structure CleanupConfig where
  master : Bool
  children : List Child
deriving DecidableEq, Repr

/-- The state the cleanup closure touches: the started guard attribute
set on first entry, and the trace of events performed so far. -/
structure CleanupState where
  started : Bool
  events : List CleanupEvent
deriving DecidableEq, Repr

/-- The events of one execution of the cleanup body, in source order:
log the exit, re-arm both signals to a no-op, destroy the gateway when
master, then run the child-termination loop. -/
def cleanupBodyEvents (cfg : CleanupConfig) : List CleanupEvent :=
  [.log_exiting, .rearm_signals]
    ++ (if cfg.master then [.gateway_destroy] else [])
    ++ signalChildrenEvents cfg.children

/-- Shallow embedding of one call to the cleanup closure in
ajenti-core/aj/core.py: if the started attribute is present return
immediately, else set it and run the body. -/
def cleanup (cfg : CleanupConfig) (s : CleanupState) : CleanupState :=
  if s.started then s
  else { started := true, events := s.events ++ cleanupBodyEvents cfg }

/-- Claim C1: cleanup is idempotent: a second call returns immediately
and changes nothing, the guard flag is set after any call, and a first
call from an unstarted state runs the body exactly once. -/
theorem cleanup_idempotent (cfg : CleanupConfig) (s : CleanupState) :
    cleanup cfg (cleanup cfg s) = cleanup cfg s
    ∧ (cleanup cfg s).started = true
    ∧ (s.started = false →
        (cleanup cfg s).events = s.events ++ cleanupBodyEvents cfg)
    ∧ (s.started = true → cleanup cfg s = s) := by
  by_cases h : s.started
  · refine ⟨?_, ?_, ?_, fun _ => by simp [cleanup, h]⟩ <;> simp [cleanup, h]
  · simp only [Bool.not_eq_true] at h
    refine ⟨?_, ?_, fun _ => ?_, fun habs => by simp [h] at habs⟩ <;> simp [cleanup, h]

/-- Claim C1 witness: a fresh master state run through cleanup twice. -/
theorem cleanup_idempotent_witness :
    cleanup ⟨true, []⟩ (cleanup ⟨true, []⟩ ⟨false, []⟩) = cleanup ⟨true, []⟩ ⟨false, []⟩
    ∧ (cleanup ⟨true, []⟩ ⟨false, []⟩).events = cleanupBodyEvents ⟨true, []⟩ :=
  ⟨(cleanup_idempotent ⟨true, []⟩ ⟨false, []⟩).1,
   by
    have h := (cleanup_idempotent ⟨true, []⟩ ⟨false, []⟩).2.2.1 rfl
    simpa using h⟩

/-- The descriptor-closing loop of the restart branch in run: fd starts
at 20 and every fd with fd greater than 2 is closed, counting down. -/
def closeFdLoop : Nat → List Nat
  | 0 => []
  | 1 => []
  | 2 => []
  | fd + 3 => (fd + 3) :: closeFdLoop (fd + 2)

/-- Observable steps of the restart-by-request branch of run, in
execution order. -/
inductive RestartStep where
  | cleanup_run
  | close_fd (fd : Nat)
  | execv (path : String) (argv : List String)
deriving DecidableEq, Repr

/-- Shallow embedding of the restart-by-request branch of run in
ajenti-core/aj/core.py: full cleanup, the descriptor-closing loop from
20 down, removal of the first -d argument when present, then execv of
the current image with the stripped argument vector. -/
def restartSteps (argv : List String) : List RestartStep :=
  let argv2 := argv.erase "-d"
  [.cleanup_run] ++ (closeFdLoop 20).map .close_fd ++ [.execv (argv2.headD "") argv2]

/-- Claim C7 counterexample: the restart branch also closes descriptor
20, so the closed range is not 3 through 19. -/
theorem restart_closes_fd20 :
    RestartStep.close_fd 20 ∈ restartSteps ["ajenti-panel"]
    ∧ ¬ (3 ≤ 20 ∧ 20 ≤ 19) := by
  constructor
  · simp [restartSteps, closeFdLoop]
  · decide

/-- Claim C7 as amended: on restart-by-request the first step is full
cleanup, the descriptors closed are exactly 3 through 20 (already-closed
ones tolerated, each close being attempted unconditionally), the first
-d argument is removed when present, and the last step replaces the
process image via execv on the stripped argument vector. -/
theorem restart_sequence_spec (argv : List String) :
    (∀ fd, RestartStep.close_fd fd ∈ restartSteps argv ↔ (3 ≤ fd ∧ fd ≤ 20))
    ∧ (restartSteps argv).head? = some .cleanup_run
    ∧ (restartSteps argv).getLast? =
        some (.execv ((argv.erase "-d").headD "") (argv.erase "-d"))
    ∧ ("-d" ∉ argv → argv.erase "-d" = argv) := by
  refine ⟨?_, by simp [restartSteps], ?_, fun h => List.erase_of_not_mem h⟩
  · intro fd
    have hlist : closeFdLoop 20 =
        [20, 19, 18, 17, 16, 15, 14, 13, 12, 11, 10, 9, 8, 7, 6, 5, 4, 3] := rfl
    constructor
    · intro hmem
      rcases List.mem_append.mp hmem with h1 | h2
      · rcases List.mem_append.mp h1 with h0 | hmap
        · simp at h0
        · obtain ⟨x, hx, he⟩ := List.mem_map.mp hmap
          obtain rfl : x = fd := by cases he; rfl
          rw [hlist] at hx
          simp at hx
          omega
      · simp at h2
    · intro hfd
      apply List.mem_append.mpr
      left
      apply List.mem_append.mpr
      right
      apply List.mem_map.mpr
      refine ⟨fd, ?_, rfl⟩
      rw [hlist]
      simp
      omega
  · have : restartSteps argv =
        ([.cleanup_run] ++ (closeFdLoop 20).map .close_fd)
          ++ [.execv ((argv.erase "-d").headD "") (argv.erase "-d")] := by
      simp [restartSteps]
    rw [this, List.getLast?_concat]

/-- Claim C7 witness: the restart sequence for a concrete argument vector
containing the debug flag. -/
theorem restart_sequence_spec_witness :
    (RestartStep.close_fd 3 ∈ restartSteps ["ajenti-panel", "-d"]
      ↔ (3 ≤ 3 ∧ 3 ≤ 20))
    ∧ (restartSteps ["ajenti-panel", "-d"]).head? = some .cleanup_run
    ∧ (restartSteps ["ajenti-panel", "-d"]).getLast? =
        some (.execv "ajenti-panel" ["ajenti-panel"]) :=
  ⟨(restart_sequence_spec ["ajenti-panel", "-d"]).1 3,
   (restart_sequence_spec ["ajenti-panel", "-d"]).2.1,
   (restart_sequence_spec ["ajenti-panel", "-d"]).2.2.1⟩

/-- The payload signed into a password-reset token: the dict with keys
user and email built in handle_api_send_pw_reset. -/
structure PwPayload where
  user : String
  email : String
deriving DecidableEq, Repr

/-- Modelled from the documented behavior of the itsdangerous
URLSafeTimedSerializer used by both reset handlers: the timed signature
is a MAC over the secret, the payload and the issue timestamp, rendered
here as a concrete tagging function. -/
def timedSignature (secret : String) (p : PwPayload) (ts : Nat) : String :=
  secret ++ "." ++ p.user ++ "." ++ p.email ++ "." ++ toString ts

/-- A signed token as produced by URLSafeTimedSerializer dumps: the
payload, the issue timestamp, and the signature over both. -/
structure SignedToken where
  payload : PwPayload
  ts : Nat
  sig : String
deriving DecidableEq, Repr

/-- Modelled from the documented behavior of URLSafeTimedSerializer
dumps: serialize the payload with the current timestamp and sign it with
the configured secret. -/
def urlsafe_dumps (secret : String) (p : PwPayload) (now : Nat) : SignedToken :=
  ⟨p, now, timedSignature secret p now⟩

/-- The two rejection modes of URLSafeTimedSerializer loads that
handle_api_check_pw_serial catches. -/
inductive TokenErr where
  | signature_expired
  | bad_time_signature
deriving DecidableEq, Repr

/-- Modelled from the documented behavior of URLSafeTimedSerializer
loads with max_age: a token whose signature does not verify fails as
BadTimeSignature; a verified token older than max_age fails as
SignatureExpired; otherwise the payload is returned. -/
def urlsafe_loads (secret : String) (tok : SignedToken) (max_age now : Nat) :
    Except TokenErr PwPayload :=
  if tok.sig ≠ timedSignature secret tok.payload tok.ts then .error .bad_time_signature
  else if now - tok.ts > max_age then .error .signature_expired
  else .ok tok.payload

/-- The typed error raised by handle_api_check_pw_serial around a token
failure, from aj.api.endpoint.EndpointError. -/
structure EndpointError where
  cause : TokenErr
deriving DecidableEq, Repr

/-- The value handle_api_check_pw_serial returns when it does not raise:
the decoded payload, or the literal False for a falsy serial. -/
inductive CheckPwResult where
  | data (p : PwPayload)
  | no_serial
deriving DecidableEq, Repr

/-- Shallow embedding of Handler.handle_api_check_pw_serial from
plugins/core/views/api.py: a falsy serial returns False; otherwise the
serial is checked with max_age 900 and a load failure is re-raised as an
EndpointError. -/
def handle_api_check_pw_serial (secret : String) (serial : Option SignedToken)
    (now : Nat) : Except EndpointError CheckPwResult :=
  match serial with
  | some tok =>
      match urlsafe_loads secret tok 900 now with
      | .ok d => .ok (.data d)
      | .error e => .error ⟨e⟩
  | none => .ok .no_serial

/-- The reset link built by handle_api_send_pw_reset, with the signed
serial rendered at the end of the URL. -/
def resetLink (origin : String) (tok : SignedToken) : String :=
  origin ++ "/view/reset_password/" ++ tok.sig

/-- Side effect of handle_api_send_pw_reset. -/
inductive PwResetEffect where
  | send_password_reset_mail (recipient : String) (link : String)
deriving DecidableEq, Repr

/-- Shallow embedding of Handler.handle_api_send_pw_reset from
plugins/core/views/api.py: look the mail up with the auth provider; when
a user matches, sign a user/email token and send the reset mail; the
handler body returns None on every path. -/
def handle_api_send_pw_reset (check_mail : String → Option String)
    (secret : String) (now : Nat) (mail origin : String) :
    JVal × List PwResetEffect :=
  match check_mail mail with
  | some username =>
      let tok := urlsafe_dumps secret ⟨username, mail⟩ now
      (.null, [.send_password_reset_mail mail (resetLink origin tok)])
  | none => (.null, [])

/-- Claim C4: a token signed by the reset signer decodes through
handle_api_check_pw_serial to the original user/email payload when
checked within 900 seconds of issuance, fails as a typed EndpointError
when checked after 900 seconds, and fails as a typed EndpointError when
its signature is tampered with. -/
theorem pw_token_roundtrip (secret user email : String) (t_issue t_check : Nat)
    (_hle : t_issue ≤ t_check) :
    (t_check - t_issue ≤ 900 →
      handle_api_check_pw_serial secret
          (some (urlsafe_dumps secret ⟨user, email⟩ t_issue)) t_check
        = .ok (.data ⟨user, email⟩))
    ∧ (t_check - t_issue > 900 →
      handle_api_check_pw_serial secret
          (some (urlsafe_dumps secret ⟨user, email⟩ t_issue)) t_check
        = .error ⟨.signature_expired⟩)
    ∧ (∀ s, s ≠ timedSignature secret ⟨user, email⟩ t_issue →
      handle_api_check_pw_serial secret (some ⟨⟨user, email⟩, t_issue, s⟩) t_check
        = .error ⟨.bad_time_signature⟩) := by
  refine ⟨?_, ?_, ?_⟩
  · intro hfresh
    simp [handle_api_check_pw_serial, urlsafe_loads, urlsafe_dumps,
      Nat.not_lt.mpr hfresh]
  · intro hstale
    simp [handle_api_check_pw_serial, urlsafe_loads, urlsafe_dumps, hstale]
  · intro s hs
    simp [handle_api_check_pw_serial, urlsafe_loads, hs]

/-- Claim C4 witness: a concrete token checked fresh, stale, and
tampered. -/
theorem pw_token_roundtrip_witness :
    handle_api_check_pw_serial "sec" (some (urlsafe_dumps "sec" ⟨"alice", "a@x"⟩ 1000)) 1900
        = .ok (.data ⟨"alice", "a@x"⟩)
    ∧ handle_api_check_pw_serial "sec" (some (urlsafe_dumps "sec" ⟨"alice", "a@x"⟩ 1000)) 1901
        = .error ⟨.signature_expired⟩
    ∧ handle_api_check_pw_serial "sec" (some ⟨⟨"alice", "a@x"⟩, 1000, "forged"⟩) 1900
        = .error ⟨.bad_time_signature⟩ :=
  ⟨(pw_token_roundtrip "sec" "alice" "a@x" 1000 1900 (by decide)).1 (by decide),
   (pw_token_roundtrip "sec" "alice" "a@x" 1000 1901 (by decide)).2.1 (by decide),
   (pw_token_roundtrip "sec" "alice" "a@x" 1000 1900 (by decide)).2.2 "forged" (by decide)⟩

/-- Claim C10: the response of handle_api_send_pw_reset is null on every
path and does not depend on whether the mail matches a user; with no
matching user no token is signed and no mail is sent, and with a match
the only effect is the single reset mail carrying the signed link. -/
theorem send_pw_reset_uniform (cm1 cm2 : String → Option String)
    (secret : String) (now : Nat) (mail origin : String) :
    (handle_api_send_pw_reset cm1 secret now mail origin).1 = JVal.null
    ∧ (handle_api_send_pw_reset cm1 secret now mail origin).1
        = (handle_api_send_pw_reset cm2 secret now mail origin).1
    ∧ (cm1 mail = none →
        (handle_api_send_pw_reset cm1 secret now mail origin).2 = [])
    ∧ (∀ u, cm1 mail = some u →
        (handle_api_send_pw_reset cm1 secret now mail origin).2
          = [.send_password_reset_mail mail
              (resetLink origin (urlsafe_dumps secret ⟨u, mail⟩ now))]) := by
  refine ⟨?_, ?_, ?_, ?_⟩
  · cases h : cm1 mail <;> simp [handle_api_send_pw_reset, h]
  · cases h1 : cm1 mail <;> cases h2 : cm2 mail <;>
      simp [handle_api_send_pw_reset, h1, h2]
  · intro h
    simp [handle_api_send_pw_reset, h]
  · intro u h
    simp [handle_api_send_pw_reset, h]

/-- Claim C10 witness: a backend that knows the mail against one that
does not, evaluated concretely. -/
theorem send_pw_reset_uniform_witness :
    (handle_api_send_pw_reset (fun _ => some "alice") "sec" 5 "a@x" "https://h").1
        = JVal.null
    ∧ (handle_api_send_pw_reset (fun _ => some "alice") "sec" 5 "a@x" "https://h").1
        = (handle_api_send_pw_reset (fun _ => none) "sec" 5 "a@x" "https://h").1
    ∧ (handle_api_send_pw_reset (fun _ => none) "sec" 5 "a@x" "https://h").2 = [] :=
  ⟨(send_pw_reset_uniform (fun _ => some "alice") (fun _ => none) "sec" 5 "a@x" "https://h").1,
   (send_pw_reset_uniform (fun _ => some "alice") (fun _ => none) "sec" 5 "a@x" "https://h").2.1,
   (send_pw_reset_uniform (fun _ => none) (fun _ => none) "sec" 5 "a@x" "https://h").2.2.1 rfl⟩

end Ajenti
